import Mathlib

/-!
Verification of the session state machine, keyword verdict engine and scoring
logic of `src/streamlit_app.py` (the Yoruba & Igbo ethical-dilemma game).

The Streamlit script is re-run from top to bottom on every user interaction;
all cross-run state lives in `st.session_state`.  We embed that state as the
structure `AppState` below and each script run as a `step` over it, indexed by
which (single) button fired during that run and by the outcomes of the
external Gemini generation calls (modelled as `Option String`: `some text`
for a successful call, `none` for a raised exception, which halts the script
at the point of the call and leaves the already-performed session-state
writes in place).
-/

namespace AfricanEthicsGame

/-- Python `str.lower` restricted to the ASCII letters.  All verdict keywords
in the source are ASCII, so this captures the `user_input_lower` computation
at line 350 on every input that matters. -/
def lowerChar (c : Char) : Char :=
  if 'A' ≤ c ∧ c ≤ 'Z' then Char.ofNat (c.toNat + 32) else c

/-- Lowercasing of a whole string, as `challenge_input.lower()` does. -/
def pyLower (s : String) : String := String.mk (s.data.map lowerChar)

/-- `needle` occurs at the start of `hay` (character lists). -/
def listStarts : List Char → List Char → Bool
  | [], _ => true
  | _ :: _, [] => false
  | a :: as, b :: bs => a == b && listStarts as bs

/-- `needle` occurs somewhere inside `hay` (character lists); this is the
semantics of Python's `needle in hay` substring test. -/
def listHasSub (needle : List Char) : List Char → Bool
  | [] => listStarts needle []
  | c :: rest => listStarts needle (c :: rest) || listHasSub needle rest

/-- Python's `word in user_input_lower` substring test on strings. -/
def strContains (hay needle : String) : Bool :=
  listHasSub needle.data hay.data

/-- The word list of a string, split on spaces: used only to contrast the
source's raw substring matching with whole-word matching. -/
def wordList (s : String) : List String :=
  (s.data.splitOn ' ').map fun l => String.mk l

/-- Counter-keywords scanned when the Ifá Priest is the challenged elder
(line 352 of the source). -/
def ifaCounterKeywords : List String :=
  ["will", "effort", "free will", "community", "umunna", "ethics"]

/-- Counter-keywords scanned when the Igbo Elder is the challenged elder
(line 357 of the source). -/
def igboCounterKeywords : List String :=
  ["fate", "ritual", "spiritual", "ori", "cosmic", "destiny"]

/-- Challenge verdict. -/
inductive Verdict where
  | Success
  | Defeated
deriving DecidableEq, Repr

/-- The verdict computed by the scoring block at lines 350-363: the
challenged elder's counter-keyword list is scanned over the lowercased
challenge text with Python's substring test; any hit is a success. -/
def resolve (challenged txt : String) : Verdict :=
  let lower := pyLower txt
  if challenged = "Ifá Priest" ∧ (ifaCounterKeywords.any fun w => strContains lower w) = true then
    .Success
  else if challenged = "Igbo Elder" ∧ (igboCounterKeywords.any fun w => strContains lower w) = true then
    .Success
  else
    .Defeated

/-- The `st.session_state` fields of the app (lines 18-27 plus the keys
assigned later: `yoruba_advice`, `igbo_advice`, `current_scenario` — here
`current_scenario_text` — and `challenge_input`).  The keys that are only
created by later assignments are `Option`s, `none` meaning "key absent". -/
structure AppState where
  ase_score : Int
  umunna_score : Int
  advice_given : Bool
  show_reflection : Bool
  challenge_active : Bool
  challenge_agent : Option String
  challenge_response : String
  show_challenge_result : Bool
  accepted_elder : Option String
  challenged_elder : Option String
  yoruba_advice : Option String
  igbo_advice : Option String
  current_scenario_text : Option String
  challenge_input : Option String
deriving DecidableEq, Repr

/-- The session state right after initialization (lines 18-27). -/
def initState : AppState where
  ase_score := 0
  umunna_score := 0
  advice_given := false
  show_reflection := false
  challenge_active := false
  challenge_agent := none
  challenge_response := ""
  show_challenge_result := false
  accepted_elder := none
  challenged_elder := none
  yoruba_advice := none
  igbo_advice := none
  current_scenario_text := none
  challenge_input := none

/-- The sidebar "Reset Game Scores" handler (lines 112-117).  Note that it
does not touch `current_scenario`, `yoruba_advice`, `igbo_advice`,
`challenge_response`, `challenge_input` or `challenge_agent`. -/
def resetScores (s : AppState) : AppState :=
  { s with ase_score := 0, umunna_score := 0, advice_given := false,
           show_reflection := false, challenge_active := false,
           show_challenge_result := false, accepted_elder := none,
           challenged_elder := none }

/-- The "Present Dilemma & Seek Counsel" handler (lines 137-152).
`genYoruba`/`genIgbo` are the outcomes of the two sequential `get_advice`
calls (lines 140-141).  A failing first call leaves the state untouched; a
failing second call happens after `st.session_state.yoruba_advice` has
already been assigned, so that write survives. -/
def presentDilemma (sc : String) (genYoruba genIgbo : Option String) (s : AppState) : AppState :=
  if sc = "" then s
  else
    match genYoruba with
    | none => s
    | some ya =>
      match genIgbo with
      | none => { s with yoruba_advice := some ya }
      | some ia =>
        { s with yoruba_advice := some ya, igbo_advice := some ia,
                 current_scenario_text := some sc, advice_given := true,
                 show_reflection := false, challenge_active := false,
                 accepted_elder := none, challenged_elder := none,
                 show_challenge_result := false }

/-- "Accept Ifá Priest's Advice" handler (lines 196-201). -/
def acceptYoruba (s : AppState) : AppState :=
  { s with ase_score := s.ase_score + 20, accepted_elder := some "Yoruba",
           show_reflection := true }

/-- "Accept Igbo Elder's Advice" handler (lines 203-208). -/
def acceptIgbo (s : AppState) : AppState :=
  { s with umunna_score := s.umunna_score + 20, accepted_elder := some "Igbo",
           show_reflection := true }

/-- "Force Elders to Critique Each Other's Advice" handler (lines 210-212). -/
def forceCritique (s : AppState) : AppState :=
  { s with show_reflection := true }

/-- The two "CHALLENGE ... Logic" handlers (lines 271-279), with `elder` the
string stored into `challenged_elder`. -/
def startChallenge (elder : String) (s : AppState) : AppState :=
  { s with challenge_active := true, challenged_elder := some elder }

/-- "Conclude Session & Earn Base Points" handler (lines 281-288). -/
def concludeBase (s : AppState) : AppState :=
  { s with ase_score := s.ase_score + 10, umunna_score := s.umunna_score + 10,
           advice_given := false, show_reflection := false,
           challenge_active := false, accepted_elder := none,
           challenged_elder := none, show_challenge_result := false }

/-- The verdict-and-scoring block at lines 349-364.  It reads
`challenge_input` back out of session state, lowercases it, and mutates the
two scores according to the keyword scan; it runs on EVERY script run that
reaches it with `show_challenge_result` set. -/
def applyVerdictScoring (s : AppState) : AppState :=
  match s.challenge_input with
  | none => s
  | some t =>
    let lower := pyLower t
    if s.challenged_elder = some "Ifá Priest" ∧
        (ifaCounterKeywords.any fun w => strContains lower w) = true then
      { s with ase_score := s.ase_score + 30, umunna_score := s.umunna_score + 10 }
    else if s.challenged_elder = some "Igbo Elder" ∧
        (igboCounterKeywords.any fun w => strContains lower w) = true then
      { s with umunna_score := s.umunna_score + 30, ase_score := s.ase_score + 10 }
    else
      { s with ase_score := s.ase_score + 5, umunna_score := s.umunna_score + 5 }

/-- One script run in the challenge branch where the "Submit Logical
Challenge" button fired (lines 326-338), with `gen` the outcome of
`get_challenge_response`.  On empty text the handler shows an error and the
script CONTINUES into the result block (line 340), so a pending
`show_challenge_result` still triggers the scoring block; on success the
handler calls `st.rerun()` (line 336) BEFORE the result block, so no scoring
happens during the submit run itself; a generation failure halts the script
with no state change. -/
def submitChallengeRun (t : String) (gen : Option String) (s : AppState) : AppState :=
  if t = "" then
    if s.show_challenge_result = true then applyVerdictScoring s else s
  else
    match gen with
    | none => s
    | some d =>
      { s with challenge_response := d, challenge_input := some t,
               show_challenge_result := true }

/-- "Conclude Session & Start a New Scenario" handler (lines 366-373).
Scores are NOT modified here; only the flow flags and elder markers reset. -/
def concludeCycle (s : AppState) : AppState :=
  { s with advice_given := false, show_reflection := false,
           challenge_active := false, show_challenge_result := false,
           accepted_elder := none, challenged_elder := none }

/-- Which (single) button fired during a script run, together with the
outcomes of the generation calls that run would make.  `rerun` is any run
with no handled button (e.g. editing a text area). -/
inductive Action where
  | reset
  | rerun
  | present (sc : String) (genYoruba genIgbo : Option String)
  | acceptYorubaBtn
  | acceptIgboBtn
  | forceCritiqueBtn
  | challengeIfaBtn
  | challengeIgboBtn
  | concludeBaseBtn
  | submitChallenge (txt : String) (gen : Option String)
  | concludeCycleBtn

/-- One full script run.  The guards are the effective conditions of the
`if/elif` dispatch chain at lines 121/154/214/290: a button's handler can
only fire when its branch was rendered in that run.  The verdict scoring
block runs whenever the script reaches the challenge branch with
`show_challenge_result` set, including the run in which the cycle-conclude
button is clicked (the button sits below the scoring block). -/
def step (a : Action) (s : AppState) : AppState :=
  match a with
  | .reset => resetScores s
  | .rerun =>
    if s.advice_given = true ∧ s.show_reflection = true ∧ s.challenge_active = true ∧
        s.show_challenge_result = true then
      applyVerdictScoring s
    else s
  | .present sc gy gi =>
    if s.advice_given = false then presentDilemma sc gy gi s else s
  | .acceptYorubaBtn =>
    if s.advice_given = true ∧ s.show_reflection = false then acceptYoruba s else s
  | .acceptIgboBtn =>
    if s.advice_given = true ∧ s.show_reflection = false then acceptIgbo s else s
  | .forceCritiqueBtn =>
    if s.advice_given = true ∧ s.show_reflection = false then forceCritique s else s
  | .challengeIfaBtn =>
    if s.advice_given = true ∧ s.show_reflection = true ∧ s.challenge_active = false then
      startChallenge "Ifá Priest" s
    else s
  | .challengeIgboBtn =>
    if s.advice_given = true ∧ s.show_reflection = true ∧ s.challenge_active = false then
      startChallenge "Igbo Elder" s
    else s
  | .concludeBaseBtn =>
    if s.advice_given = true ∧ s.show_reflection = true ∧ s.challenge_active = false then
      concludeBase s
    else s
  | .submitChallenge t g =>
    if s.advice_given = true ∧ s.show_reflection = true ∧ s.challenge_active = true then
      submitChallengeRun t g s
    else s
  | .concludeCycleBtn =>
    if s.advice_given = true ∧ s.show_reflection = true ∧ s.challenge_active = true ∧
        s.show_challenge_result = true then
      concludeCycle (applyVerdictScoring s)
    else s

/-- The five session phases of the flow. -/
inductive Phase where
  | Idle
  | AdviceShown
  | ReflectionShown
  | ChallengeActive
  | ChallengeResolved
deriving DecidableEq, Repr

/-- The phase a state is dispatched to, mirroring the `if/elif` chain at
lines 121/154/214/290, with the challenge branch split by
`show_challenge_result` (line 340) into active/resolved. -/
def phaseOf (s : AppState) : Phase :=
  if s.advice_given = false then .Idle
  else if s.advice_given = true ∧ s.show_reflection = false then .AdviceShown
  else if s.show_reflection = true ∧ s.challenge_active = false then .ReflectionShown
  else if s.challenge_active = true ∧ s.show_challenge_result = false then .ChallengeActive
  else .ChallengeResolved

/-- States reachable from initialization by any sequence of script runs. -/
inductive Reachable : AppState → Prop where
  | base : Reachable initState
  | next : ∀ {s : AppState} (a : Action), Reachable s → Reachable (step a s)

/-- The flag-ordering invariant of the session flow. -/
@[reducible] def FlagInv (s : AppState) : Prop :=
  (s.show_challenge_result = true → s.challenge_active = true) ∧
  (s.challenge_active = true → s.show_reflection = true) ∧
  (s.show_reflection = true → s.advice_given = true)

/-- How many branches of the dispatch chain accept a state. -/
def dispatchCount (s : AppState) : Nat :=
  (if s.advice_given = false then 1 else 0) +
  (if s.advice_given = true ∧ s.show_reflection = false then 1 else 0) +
  (if s.show_reflection = true ∧ s.challenge_active = false then 1 else 0) +
  (if s.challenge_active = true then 1 else 0)

/-- A critique produced in the reflection branch: who critiques, whose
doctrine is targeted, which stored advice text is passed to the prompt, and
the generated text. -/
structure CritiqueRecord where
  critic : String
  target : String
  targetAdvice : String
  text : String
deriving DecidableEq, Repr

/-- The critique generation of the reflection branch (lines 219-264), as a
function of `accepted_elder`, the two stored advice texts, and the outcomes
of the `get_reflection` calls (`genIgboCritic` for the call with the Igbo
Elder as critic, `genIfaCritic` for the call with the Ifá Priest as critic).
Returns the critiques displayed by the run and whether the run completed
(`false` = an uncaught generation exception halted the script).  In the
no-accepted-elder branch the two calls are sequential, Igbo critic first
(lines 245-248), Ifá critic second (lines 256-259). -/
def runReflection (accepted : Option String) (yorubaAdviceText igboAdviceText : String)
    (genIgboCritic genIfaCritic : Option String) : List CritiqueRecord × Bool :=
  match accepted with
  | some "Igbo" =>
    match genIfaCritic with
    | none => ([], false)
    | some t => ([⟨"Ifá Priest", "Igbo Elder", igboAdviceText, t⟩], true)
  | some "Yoruba" =>
    match genIgboCritic with
    | none => ([], false)
    | some t => ([⟨"Igbo Elder", "Ifá Priest", yorubaAdviceText, t⟩], true)
  | _ =>
    match genIgboCritic with
    | none => ([], false)
    | some t1 =>
      match genIfaCritic with
      | none => ([⟨"Igbo Elder", "Ifá Priest", yorubaAdviceText, t1⟩], false)
      | some t2 =>
        ([⟨"Igbo Elder", "Ifá Priest", yorubaAdviceText, t1⟩,
          ⟨"Ifá Priest", "Igbo Elder", igboAdviceText, t2⟩], true)

/-! ### Helper lemmas -/

theorem applyVerdictScoring_flags (s : AppState) :
    (applyVerdictScoring s).advice_given = s.advice_given ∧
    (applyVerdictScoring s).show_reflection = s.show_reflection ∧
    (applyVerdictScoring s).challenge_active = s.challenge_active ∧
    (applyVerdictScoring s).show_challenge_result = s.show_challenge_result := by
  cases hci : s.challenge_input with
  | none => simp [applyVerdictScoring, hci]
  | some t =>
    simp only [applyVerdictScoring, hci]
    split_ifs <;> simp

theorem flagInv_applyVerdictScoring {s : AppState} (h : FlagInv s) :
    FlagInv (applyVerdictScoring s) := by
  obtain ⟨e1, e2, e3, e4⟩ := applyVerdictScoring_flags s
  unfold FlagInv at h ⊢
  rw [e1, e2, e3, e4]
  exact h

theorem flagInv_step (a : Action) (s : AppState) (h : FlagInv s) : FlagInv (step a s) := by
  obtain ⟨h1, h2, h3⟩ := h
  cases a with
  | reset => simp [step, resetScores, FlagInv]
  | rerun =>
    simp only [step]
    split_ifs with hc
    · exact flagInv_applyVerdictScoring ⟨h1, h2, h3⟩
    · exact ⟨h1, h2, h3⟩
  | present sc gy gi =>
    simp only [step]
    split_ifs with hc
    · cases gy with
      | none =>
        simp only [presentDilemma]
        split_ifs <;> exact ⟨h1, h2, h3⟩
      | some ya =>
        cases gi with
        | none =>
          simp only [presentDilemma]
          split_ifs
          · exact ⟨h1, h2, h3⟩
          · exact ⟨h1, h2, h3⟩
        | some ia =>
          simp only [presentDilemma]
          split_ifs
          · exact ⟨h1, h2, h3⟩
          · simp [FlagInv]
    · exact ⟨h1, h2, h3⟩
  | acceptYorubaBtn =>
    simp only [step]
    split_ifs with hc
    · exact ⟨h1, fun _ => rfl, fun _ => hc.1⟩
    · exact ⟨h1, h2, h3⟩
  | acceptIgboBtn =>
    simp only [step]
    split_ifs with hc
    · exact ⟨h1, fun _ => rfl, fun _ => hc.1⟩
    · exact ⟨h1, h2, h3⟩
  | forceCritiqueBtn =>
    simp only [step]
    split_ifs with hc
    · exact ⟨h1, fun _ => rfl, fun _ => hc.1⟩
    · exact ⟨h1, h2, h3⟩
  | challengeIfaBtn =>
    simp only [step]
    split_ifs with hc
    · exact ⟨fun _ => rfl, fun _ => hc.2.1, fun _ => hc.1⟩
    · exact ⟨h1, h2, h3⟩
  | challengeIgboBtn =>
    simp only [step]
    split_ifs with hc
    · exact ⟨fun _ => rfl, fun _ => hc.2.1, fun _ => hc.1⟩
    · exact ⟨h1, h2, h3⟩
  | concludeBaseBtn =>
    simp only [step]
    split_ifs with hc
    · simp [concludeBase, FlagInv]
    · exact ⟨h1, h2, h3⟩
  | submitChallenge t g =>
    simp only [step]
    split_ifs with hc
    · cases g with
      | none =>
        simp only [submitChallengeRun]
        split_ifs
        · exact flagInv_applyVerdictScoring ⟨h1, h2, h3⟩
        · exact ⟨h1, h2, h3⟩
        · exact ⟨h1, h2, h3⟩
      | some d =>
        simp only [submitChallengeRun]
        split_ifs
        · exact flagInv_applyVerdictScoring ⟨h1, h2, h3⟩
        · exact ⟨h1, h2, h3⟩
        · exact ⟨fun _ => hc.2.2, h2, h3⟩
    · exact ⟨h1, h2, h3⟩
  | concludeCycleBtn =>
    simp only [step]
    split_ifs with hc
    · simp [concludeCycle, FlagInv]
    · exact ⟨h1, h2, h3⟩

theorem reachable_flagInv {s : AppState} (h : Reachable s) : FlagInv s := by
  induction h with
  | base => simp [FlagInv, initState]
  | next a _ ih => exact flagInv_step a _ ih

theorem phaseOf_idle_iff (s : AppState) :
    phaseOf s = Phase.Idle ↔ s.advice_given = false := by
  cases hag : s.advice_given <;> cases hsr : s.show_reflection <;>
    cases hca : s.challenge_active <;> cases hscr : s.show_challenge_result <;>
      simp [phaseOf, hag, hsr, hca, hscr]

theorem phaseOf_adviceShown_iff (s : AppState) :
    phaseOf s = Phase.AdviceShown ↔ s.advice_given = true ∧ s.show_reflection = false := by
  cases hag : s.advice_given <;> cases hsr : s.show_reflection <;>
    cases hca : s.challenge_active <;> cases hscr : s.show_challenge_result <;>
      simp [phaseOf, hag, hsr, hca, hscr]

theorem phaseOf_reflectionShown_iff (s : AppState) :
    phaseOf s = Phase.ReflectionShown ↔
      s.advice_given = true ∧ s.show_reflection = true ∧ s.challenge_active = false := by
  cases hag : s.advice_given <;> cases hsr : s.show_reflection <;>
    cases hca : s.challenge_active <;> cases hscr : s.show_challenge_result <;>
      simp [phaseOf, hag, hsr, hca, hscr]

theorem resolve_ifa_success_iff (t : String) :
    resolve "Ifá Priest" t = .Success ↔
      (ifaCounterKeywords.any fun w => strContains (pyLower t) w) = true := by
  unfold resolve
  by_cases h : (ifaCounterKeywords.any fun w => strContains (pyLower t) w) = true <;>
    simp [h]

theorem resolve_igbo_success_iff (t : String) :
    resolve "Igbo Elder" t = .Success ↔
      (igboCounterKeywords.any fun w => strContains (pyLower t) w) = true := by
  unfold resolve
  by_cases h : (igboCounterKeywords.any fun w => strContains (pyLower t) w) = true <;>
    simp [h]

/-! ### Claim theorems -/

/-- C4: the verdict is a pure total function of the challenged persona id and
the challenge text: `Success` exactly when the lowercased text contains at
least one counter-keyword of the challenged persona, `Defeated` otherwise
(totality: every input yields one of the two verdicts); with the spec's
concrete evaluations and the empty-string cases for both personas. -/
theorem verdictEngine_resolve_spec :
    (∀ t : String, resolve "Ifá Priest" t = .Success ↔
      (ifaCounterKeywords.any fun w => strContains (pyLower t) w) = true)
  ∧ (∀ t : String, resolve "Igbo Elder" t = .Success ↔
      (igboCounterKeywords.any fun w => strContains (pyLower t) w) = true)
  ∧ (∀ t : String, resolve "Ifá Priest" t = .Success ∨ resolve "Ifá Priest" t = .Defeated)
  ∧ (∀ t : String, resolve "Igbo Elder" t = .Success ∨ resolve "Igbo Elder" t = .Defeated)
  ∧ resolve "Ifá Priest" "I trust my effort and umunna" = .Success
  ∧ resolve "Ifá Priest" "nice weather today" = .Defeated
  ∧ resolve "Igbo Elder" "destiny and ori guide us" = .Success
  ∧ resolve "Ifá Priest" "" = .Defeated
  ∧ resolve "Igbo Elder" "" = .Defeated := by
  refine ⟨resolve_ifa_success_iff, resolve_igbo_success_iff, ?_, ?_,
    by decide, by decide, by decide, by decide, by decide⟩
  · intro t
    cases resolve "Ifá Priest" t
    · exact Or.inl rfl
    · exact Or.inr rfl
  · intro t
    cases resolve "Igbo Elder" t
    · exact Or.inl rfl
    · exact Or.inr rfl

/-- C10: verdict matching is raw substring matching on the lowercased text,
not whole-word matching: "ori" occurs in "That was my original plan" only
inside the longer word "original" (it is not among the space-separated
words), yet the text defeats the Igbo Elder; likewise "will" inside
"willing" against the Ifá Priest. -/
theorem substring_not_wholeword_matching :
    strContains (pyLower "That was my original plan") "ori" = true
  ∧ (wordList (pyLower "That was my original plan")).contains "ori" = false
  ∧ resolve "Igbo Elder" "That was my original plan" = .Success
  ∧ strContains (pyLower "I am willing to try") "will" = true
  ∧ (wordList (pyLower "I am willing to try")).contains "will" = false
  ∧ resolve "Ifá Priest" "I am willing to try" = .Success := by decide

/-- C7: in the reflection branch, when generation succeeds: a recorded
accepted persona yields exactly one critique, authored by the non-accepted
persona against the accepted persona's stored advice (the other persona's
generation outcome is never consulted); no recorded accepted persona yields
exactly two critiques, one authored by each persona against the other's
advice. -/
theorem reflection_critique_records (yAdv iAdv : String) :
    (∀ (gIg : Option String) (t : String),
      runReflection (some "Igbo") yAdv iAdv gIg (some t) =
        ([⟨"Ifá Priest", "Igbo Elder", iAdv, t⟩], true))
  ∧ (∀ (gIf : Option String) (t : String),
      runReflection (some "Yoruba") yAdv iAdv (some t) gIf =
        ([⟨"Igbo Elder", "Ifá Priest", yAdv, t⟩], true))
  ∧ (∀ t1 t2 : String,
      runReflection none yAdv iAdv (some t1) (some t2) =
        ([⟨"Igbo Elder", "Ifá Priest", yAdv, t1⟩,
          ⟨"Ifá Priest", "Igbo Elder", iAdv, t2⟩], true)) :=
  ⟨fun _ _ => rfl, fun _ _ => rfl, fun _ _ => rfl⟩

/-- C8 counterexample: with no accepted persona, when the first critique
call (Igbo Elder as critic) fails while the second (Ifá Priest as critic)
would succeed, the run halts and displays no critique at all — the failure
of the first call does block the generation and display of the other. -/
theorem critique_isolation_counterexample :
    runReflection none "advY" "advI" none (some "critique of Igbo") = ([], false)
  ∧ ¬ (⟨"Ifá Priest", "Igbo Elder", "advI", "critique of Igbo"⟩ ∈
        (runReflection none "advY" "advI" none (some "critique of Igbo")).1) := by
  exact ⟨rfl, by decide⟩

/-- C8 amended: the two critique calls of the no-accepted branch are
sequential, Igbo Elder critic first: a failure of the second call still
displays the first critique and is reported as an incomplete run, but a
failure of the first call halts the run before the second call is attempted,
so no critique is displayed regardless of the second outcome. -/
theorem critique_sequential_amended (yAdv iAdv t : String) :
    runReflection none yAdv iAdv (some t) none
      = ([⟨"Igbo Elder", "Ifá Priest", yAdv, t⟩], false)
  ∧ (∀ g : Option String, runReflection none yAdv iAdv none g = ([], false))
  ∧ runReflection none yAdv iAdv (some t) (some t)
      = ([⟨"Igbo Elder", "Ifá Priest", yAdv, t⟩,
          ⟨"Ifá Priest", "Igbo Elder", iAdv, t⟩], true) :=
  ⟨rfl, fun _ => rfl, rfl⟩

/-- A challenge-resolved state with the Igbo Elder challenged and a winning
challenge text stored, scores still zero. -/
def challengedIgboState : AppState where
  ase_score := 0
  umunna_score := 0
  advice_given := true
  show_reflection := true
  challenge_active := true
  challenge_agent := none
  challenge_response := "defense"
  show_challenge_result := true
  accepted_elder := none
  challenged_elder := some "Igbo Elder"
  yoruba_advice := some "advY"
  igbo_advice := some "advI"
  current_scenario_text := some "Should I gamble?"
  challenge_input := some "fate and destiny guide better"

/-- C1 counterexample: challenging the Igbo Elder with the spec's winning
text "fate and destiny guide better" is a Success, but the scoring block
adds 30 to the Igbo (umunna) axis and 10 to the Yoruba (ase) axis — not, as
claimed, 30 to the opposing axis and 10 to the challenged persona's own. -/
theorem challenge_axis_counterexample :
    resolve "Igbo Elder" "fate and destiny guide better" = .Success
  ∧ (applyVerdictScoring challengedIgboState).ase_score = 10
  ∧ (applyVerdictScoring challengedIgboState).umunna_score = 30
  ∧ ¬ ((applyVerdictScoring challengedIgboState).ase_score = 30
      ∧ (applyVerdictScoring challengedIgboState).umunna_score = 10) := by decide

/-- C1 amended: a Success verdict adds 30 to the CHALLENGED persona's own
axis and 10 to the opposing axis; a Defeated verdict adds 5 to both; in
particular challenging the Igbo Elder and winning yields Igbo axis +30 and
Yoruba axis +10. -/
theorem challenge_scoring_amended (s : AppState) (t : String)
    (ht : s.challenge_input = some t) :
    (s.challenged_elder = some "Ifá Priest" →
      (resolve "Ifá Priest" t = .Success →
        (applyVerdictScoring s).ase_score = s.ase_score + 30 ∧
        (applyVerdictScoring s).umunna_score = s.umunna_score + 10) ∧
      (resolve "Ifá Priest" t = .Defeated →
        (applyVerdictScoring s).ase_score = s.ase_score + 5 ∧
        (applyVerdictScoring s).umunna_score = s.umunna_score + 5))
  ∧ (s.challenged_elder = some "Igbo Elder" →
      (resolve "Igbo Elder" t = .Success →
        (applyVerdictScoring s).umunna_score = s.umunna_score + 30 ∧
        (applyVerdictScoring s).ase_score = s.ase_score + 10) ∧
      (resolve "Igbo Elder" t = .Defeated →
        (applyVerdictScoring s).umunna_score = s.umunna_score + 5 ∧
        (applyVerdictScoring s).ase_score = s.ase_score + 5)) := by
  have hne : ¬ ("Ifá Priest" : String) = "Igbo Elder" := by decide
  have hne' : ¬ ("Igbo Elder" : String) = "Ifá Priest" := by decide
  constructor
  · intro hch
    constructor
    · intro hv
      rw [resolve_ifa_success_iff] at hv
      simp [applyVerdictScoring, ht, hch, hv]
    · intro hv
      cases hany : (ifaCounterKeywords.any fun w => strContains (pyLower t) w) with
      | false => simp [applyVerdictScoring, ht, hch, hany, hne]
      | true =>
        rw [(resolve_ifa_success_iff t).mpr hany] at hv
        cases hv
  · intro hch
    constructor
    · intro hv
      rw [resolve_igbo_success_iff] at hv
      simp [applyVerdictScoring, ht, hch, hv, hne']
    · intro hv
      cases hany : (igboCounterKeywords.any fun w => strContains (pyLower t) w) with
      | false => simp [applyVerdictScoring, ht, hch, hany, hne']
      | true =>
        rw [(resolve_igbo_success_iff t).mpr hany] at hv
        cases hv

/-- C1 amended, evaluated: at `challengedIgboState` the winning challenge
against the Igbo Elder yields umunna +30 and ase +10. -/
theorem challenge_scoring_amended_witness :
    (applyVerdictScoring challengedIgboState).umunna_score =
      challengedIgboState.umunna_score + 30
  ∧ (applyVerdictScoring challengedIgboState).ase_score =
      challengedIgboState.ase_score + 10 :=
  ((challenge_scoring_amended challengedIgboState "fate and destiny guide better"
      rfl).2 rfl).1 (by decide)

/-- The state reached by: present a dilemma (both advice calls succeed),
accept the Ifá Priest's advice, challenge the Igbo Elder, submit the winning
challenge "fate and destiny guide better" (defense generation succeeds). -/
def resolvedCycleState : AppState :=
  step (.submitChallenge "fate and destiny guide better" (some "defense"))
    (step .challengeIgboBtn
      (step .acceptYorubaBtn
        (step (.present "Should I gamble?" (some "advY") (some "advI")) initState)))

/-- C2 (bug evidence): no score delta has been applied yet when the submit
run finishes (20/0 from the earlier accept), and the verdict deltas are then
applied on EVERY subsequent script run while the result is shown: once on
the automatic rerun that displays the result (30/30), again on a further
rerun (40/60), and the run that clicks "Conclude Session & Start a New
Scenario" applies them once more before resetting (so even the minimal
cycle without extra reruns books the deltas twice: 40/60). -/
theorem verdict_scoring_not_once :
    phaseOf resolvedCycleState = .ChallengeResolved
  ∧ resolvedCycleState.ase_score = 20
  ∧ resolvedCycleState.umunna_score = 0
  ∧ (step .rerun resolvedCycleState).ase_score = 30
  ∧ (step .rerun resolvedCycleState).umunna_score = 30
  ∧ (step .rerun (step .rerun resolvedCycleState)).ase_score = 40
  ∧ (step .rerun (step .rerun resolvedCycleState)).umunna_score = 60
  ∧ (step .concludeCycleBtn (step .rerun resolvedCycleState)).ase_score = 40
  ∧ (step .concludeCycleBtn (step .rerun resolvedCycleState)).umunna_score = 60
  ∧ phaseOf (step .concludeCycleBtn (step .rerun resolvedCycleState)) = .Idle := by
  decide

/-- The state after a present-dilemma run whose first advice call succeeded
and whose second raised. -/
def partialAdviceState : AppState :=
  step (.present "Should I gamble?" (some "Trust your chi") none) initState

/-- C3 counterexample: when the first advice call succeeds and the second
fails, the fetched Yoruba advice IS persisted in session state (it is not
discarded), although the phase does remain Idle. -/
theorem advice_atomicity_counterexample :
    partialAdviceState.yoruba_advice = some "Trust your chi"
  ∧ ¬ partialAdviceState.yoruba_advice = none
  ∧ partialAdviceState.advice_given = false
  ∧ phaseOf partialAdviceState = .Idle := by decide

/-- C3 amended: with a non-empty scenario, a failure of the FIRST advice
call leaves the state completely unchanged, while a failure of the SECOND
leaves the already fetched Yoruba advice persisted in `yoruba_advice` (all
other fields unchanged); in both cases the phase remains Idle. -/
theorem advice_failure_amended (s : AppState) (hph : phaseOf s = .Idle)
    (sc ya : String) (hsc : ¬ sc = "") (g2 : Option String) :
    step (.present sc none g2) s = s
  ∧ step (.present sc (some ya) none) s = { s with yoruba_advice := some ya }
  ∧ phaseOf (step (.present sc (some ya) none) s) = .Idle := by
  have hag : s.advice_given = false := (phaseOf_idle_iff s).mp hph
  refine ⟨?_, ?_, ?_⟩
  · simp [step, hag, presentDilemma, hsc]
  · simp [step, hag, presentDilemma, hsc]
  · rw [phaseOf_idle_iff]
    simp [step, hag, presentDilemma, hsc]

/-- C3 amended, evaluated at the initial state with the second call failing. -/
theorem advice_failure_amended_witness :
    step (.present "Should I gamble?" none none) initState = initState
  ∧ step (.present "Should I gamble?" (some "Trust your chi") none) initState
      = { initState with yoruba_advice := some "Trust your chi" }
  ∧ phaseOf (step (.present "Should I gamble?" (some "Trust your chi") none) initState)
      = .Idle :=
  advice_failure_amended initState (by decide) "Should I gamble?" "Trust your chi"
    (by decide) none

/-- C5 counterexample: after presenting a dilemma, the reset run zeroes the
scores and returns to Idle but does NOT discard the stored scenario and
advice texts. -/
theorem reset_discards_counterexample :
    (step .reset (step (.present "Sell my farm?" (some "advY") (some "advI"))
        initState)).current_scenario_text = some "Sell my farm?"
  ∧ (step .reset (step (.present "Sell my farm?" (some "advY") (some "advI"))
        initState)).yoruba_advice = some "advY"
  ∧ ¬ (step .reset (step (.present "Sell my farm?" (some "advY") (some "advI"))
        initState)).current_scenario_text = none := by decide

/-- C5 amended: from every state, the reset action zeroes both score
counters, forces the phase to Idle and clears the accepted/challenged elder
markers, but retains the stored scenario text, both advice texts, the
defense text and the challenge text (they are merely inert until
overwritten by the next cycle). -/
theorem reset_amended (s : AppState) :
    step .reset s = resetScores s
  ∧ (resetScores s).ase_score = 0
  ∧ (resetScores s).umunna_score = 0
  ∧ phaseOf (resetScores s) = .Idle
  ∧ (resetScores s).accepted_elder = none
  ∧ (resetScores s).challenged_elder = none
  ∧ (resetScores s).current_scenario_text = s.current_scenario_text
  ∧ (resetScores s).yoruba_advice = s.yoruba_advice
  ∧ (resetScores s).igbo_advice = s.igbo_advice
  ∧ (resetScores s).challenge_response = s.challenge_response
  ∧ (resetScores s).challenge_input = s.challenge_input := by
  refine ⟨rfl, rfl, rfl, ?_, rfl, rfl, rfl, rfl, rfl, rfl, rfl⟩
  rw [phaseOf_idle_iff]
  rfl

/-- The advice-shown state after presenting a dilemma with both calls
succeeding. -/
def counselState : AppState :=
  step (.present "Quit my job?" (some "advY") (some "advI")) initState

/-- The reflection state reached from `counselState` by forcing the mutual
critique (no accepted persona). -/
def reflectionState : AppState :=
  step .forceCritiqueBtn counselState

/-- C6: from any reachable AdviceShown state, accepting a persona adds
exactly 20 to that persona's axis and nothing to the other axis and moves
to ReflectionShown; from any reachable ReflectionShown state, concluding
with base points adds exactly 10 to both axes and returns to Idle. -/
theorem accept_and_concludeBase_scoring (s : AppState) (hr : Reachable s) :
    (phaseOf s = .AdviceShown →
      ((step .acceptYorubaBtn s).ase_score = s.ase_score + 20
        ∧ (step .acceptYorubaBtn s).umunna_score = s.umunna_score
        ∧ phaseOf (step .acceptYorubaBtn s) = .ReflectionShown)
      ∧ ((step .acceptIgboBtn s).umunna_score = s.umunna_score + 20
        ∧ (step .acceptIgboBtn s).ase_score = s.ase_score
        ∧ phaseOf (step .acceptIgboBtn s) = .ReflectionShown))
  ∧ (phaseOf s = .ReflectionShown →
      (step .concludeBaseBtn s).ase_score = s.ase_score + 10
      ∧ (step .concludeBaseBtn s).umunna_score = s.umunna_score + 10
      ∧ phaseOf (step .concludeBaseBtn s) = .Idle) := by
  obtain ⟨h1, h2, h3⟩ := reachable_flagInv hr
  constructor
  · intro hph
    obtain ⟨hag, hsr⟩ := (phaseOf_adviceShown_iff s).mp hph
    have hca : s.challenge_active = false := by
      cases hcac : s.challenge_active
      · rfl
      · rw [h2 hcac] at hsr
        cases hsr
    constructor
    · refine ⟨?_, ?_, ?_⟩
      · simp [step, hag, hsr, acceptYoruba]
      · simp [step, hag, hsr, acceptYoruba]
      · rw [phaseOf_reflectionShown_iff]
        simp [step, hag, hsr, hca, acceptYoruba]
    · refine ⟨?_, ?_, ?_⟩
      · simp [step, hag, hsr, acceptIgbo]
      · simp [step, hag, hsr, acceptIgbo]
      · rw [phaseOf_reflectionShown_iff]
        simp [step, hag, hsr, hca, acceptIgbo]
  · intro hph
    obtain ⟨hag, hsr, hca⟩ := (phaseOf_reflectionShown_iff s).mp hph
    refine ⟨?_, ?_, ?_⟩
    · simp [step, hag, hsr, hca, concludeBase]
    · simp [step, hag, hsr, hca, concludeBase]
    · rw [phaseOf_idle_iff]
      simp [step, hag, hsr, hca, concludeBase]

/-- C6, evaluated on the concrete reachable states after presenting a
dilemma (AdviceShown) and after forcing the critique (ReflectionShown). -/
theorem accept_and_concludeBase_scoring_witness :
    (((step .acceptYorubaBtn counselState).ase_score = counselState.ase_score + 20
      ∧ (step .acceptYorubaBtn counselState).umunna_score = counselState.umunna_score
      ∧ phaseOf (step .acceptYorubaBtn counselState) = .ReflectionShown)
    ∧ ((step .acceptIgboBtn counselState).umunna_score = counselState.umunna_score + 20
      ∧ (step .acceptIgboBtn counselState).ase_score = counselState.ase_score
      ∧ phaseOf (step .acceptIgboBtn counselState) = .ReflectionShown))
  ∧ ((step .concludeBaseBtn reflectionState).ase_score = reflectionState.ase_score + 10
    ∧ (step .concludeBaseBtn reflectionState).umunna_score = reflectionState.umunna_score + 10
    ∧ phaseOf (step .concludeBaseBtn reflectionState) = .Idle) :=
  ⟨(accept_and_concludeBase_scoring counselState
      (Reachable.next (.present "Quit my job?" (some "advY") (some "advI"))
        Reachable.base)).1 (by decide),
   (accept_and_concludeBase_scoring reflectionState
      (Reachable.next .forceCritiqueBtn
        (Reachable.next (.present "Quit my job?" (some "advY") (some "advI"))
          Reachable.base))).2 (by decide)⟩

/-- C9: every reachable session state satisfies the flag implications
show_challenge_result → challenge_active → show_reflection → advice_given,
and exactly one branch of the if/elif dispatch chain accepts it, so the
dispatch assigns exactly one phase to every reachable state. -/
theorem reachable_dispatch_unique (s : AppState) (hr : Reachable s) :
    (s.show_challenge_result = true → s.challenge_active = true)
  ∧ (s.challenge_active = true → s.show_reflection = true)
  ∧ (s.show_reflection = true → s.advice_given = true)
  ∧ dispatchCount s = 1 := by
  obtain ⟨h1, h2, h3⟩ := reachable_flagInv hr
  refine ⟨h1, h2, h3, ?_⟩
  cases hag : s.advice_given <;> cases hsr : s.show_reflection <;>
    cases hca : s.challenge_active <;> simp_all [dispatchCount]

/-- C9, evaluated at the initial state. -/
theorem reachable_dispatch_unique_witness :
    (initState.show_challenge_result = true → initState.challenge_active = true)
  ∧ (initState.challenge_active = true → initState.show_reflection = true)
  ∧ (initState.show_reflection = true → initState.advice_given = true)
  ∧ dispatchCount initState = 1 :=
  reachable_dispatch_unique initState Reachable.base

end AfricanEthicsGame
